import Mathlib

/-!
Shallow embedding of HCCeval.py (HierCC evaluation).

Similarity and silhouette values are modelled as rationals.  The NMI
function and the sklearn silhouette metric are external collaborators
(imported in the source from sklearn.metrics) and appear here as
abstract function parameters.  Distance matrices are total functions
over Nat indices with integer entries (the source uses an int32 numpy
array); level columns (rows of cluster.T) are lists of integer cluster
tags.  Shared-memory attachment is modelled by passing the attached
matrix as an argument.
-/

/-- np.unique(x).size : the number of distinct values in a vector. -/
def uniqueSize (x : List Int) : Nat := x.dedup.length

/-- Row i of cluster.T, i.e. the tag vector of level i. -/
def levelCol (cols : List (List Int)) (i : Nat) : List Int := cols.getD i []

/-- get_similarity2 (HCCeval.py lines 19-23): one similarity work unit.
Faithful to the source, which tests np.unique(cc1).size == 1 twice on
line 21 and never inspects cc2 in the condition. -/
def get_similarity2 (method : List Int → List Int → ℚ) (cc1 cc2 : List Int) : ℚ :=
  if uniqueSize cc1 = 1 ∧ uniqueSize cc1 = 1 then 1 else method cc1 cc2

/-- The matrix of np.ones the similarity assembly starts from. -/
def simInit : Nat → Nat → ℚ := fun _ _ => 1

/-- One iteration of the assembly loop in get_similarity (lines 28-32):
writes similarity[i1, i1+1:] from the work units and mirrors the fresh
values to similarity[i1+1:, i1]. -/
def simStep (method : List Int → List Int → ℚ) (cols : List (List Int))
    (M : Nat → Nat → ℚ) (i1 : Nat) : Nat → Nat → ℚ :=
  fun i j =>
    if i = i1 ∧ i1 < j ∧ j < cols.length then
      get_similarity2 method (levelCol cols i1) (levelCol cols j)
    else if j = i1 ∧ i1 < i ∧ i < cols.length then
      get_similarity2 method (levelCol cols i1) (levelCol cols i)
    else M i j

/-- The assembly loop of get_similarity before clamping: the for-loop
over the rows of cluster.T. -/
def simLoop (method : List Int → List Int → ℚ) (cols : List (List Int)) :
    Nat → Nat → ℚ :=
  (List.range cols.length).foldl (simStep method cols) simInit

/-- First clamping pass (line 33): similarity[similarity>0.999] = 0.999. -/
def clampHigh (v : ℚ) : ℚ := if v > 999/1000 then 999/1000 else v

/-- Second clamping pass (line 34): similarity[similarity<0.0] = 0.0. -/
def clampLow (v : ℚ) : ℚ := if v < 0 then 0 else v

/-- get_similarity (lines 25-35): assembles the level-by-level
similarity matrix and applies the two whole-matrix clamping passes.
The argument cols is the list of level columns, i.e. cluster.T. -/
def get_similarity (method : List Int → List Int → ℚ) (cols : List (List Int)) :
    Nat → Nat → ℚ :=
  fun i j => clampLow (clampHigh (simLoop method cols i j))

/-- Closed form of the assembly loop after the first k iterations. -/
def simClosedUpTo (method : List Int → List Int → ℚ) (cols : List (List Int))
    (k : Nat) : Nat → Nat → ℚ :=
  fun i j =>
    if i < j ∧ j < cols.length ∧ i < k then
      get_similarity2 method (levelCol cols i) (levelCol cols j)
    else if j < i ∧ i < cols.length ∧ j < k then
      get_similarity2 method (levelCol cols j) (levelCol cols i)
    else 1

/-- The symmetrization step of get_silhouette (line 40):
dist.dist += dist.dist.T, i.e. D + transpose of D. -/
def symmetrize (D : Nat → Nat → ℤ) : Nat → Nat → ℤ := fun i j => D i j + D j i

/-- get_silhouette2 (lines 45-55): one silhouette work unit.  The
shared-memory attach is modelled by passing the distance matrix dist;
the sklearn silhouette_score call is the abstract parameter silScore.
The chained comparison 2 <= s.size < tag.shape[0] is the conjunction
below. -/
def get_silhouette2 (silScore : (Nat → Nat → ℤ) → List Int → ℚ)
    (dist : Nat → Nat → ℤ) (tag : List Int) : ℚ :=
  if 2 ≤ uniqueSize tag ∧ uniqueSize tag < tag.length then silScore dist tag
  else 0

/-- get_silhouette (lines 37-43): symmetrizes the shared distance
matrix once, then maps the silhouette work unit over the level
columns (rows of cluster.T). -/
def get_silhouette (silScore : (Nat → Nat → ℤ) → List Int → ℚ)
    (D : Nat → Nat → ℤ) (cols : List (List Int)) : List ℚ :=
  let D2 := symmetrize D
  cols.map (fun tag => get_silhouette2 silScore D2 tag)

/-- The python dict comprehension idx = set of profile IDs mapped to
their row index; later duplicates overwrite earlier ones, so this is
the index of the last occurrence. -/
def idxOf (ids : List Int) (p : Int) : Option Nat :=
  (((ids.enum.filter (fun x => x.2 == p)).map (fun x => x.1))).getLast?

/-- Stable insertion of one element into a sorted list, used to model
the python built-in sorted. -/
def insertSorted (le : α → α → Bool) (a : α) : List α → List α
  | [] => [a]
  | b :: t => if le a b then a :: b :: t else b :: insertSorted le a t

/-- The python built-in sorted, modelled as a stable insertion sort. -/
def sortedBy (le : α → α → Bool) (l : List α) : List α :=
  l.foldr (insertSorted le) []

/-- The ID-based alignment of evalHCC (lines 81-83): keep the cluster
rows whose column-0 ID occurs among the profile IDs, sort the pairs
(profile index, original cluster position) lexicographically as
python sorted does on 2-element lists, and reorder the cluster rows
accordingly. -/
def alignCluster (profile cluster : List (List Int)) : List (List Int) :=
  let ids := profile.map (fun r => r.headD 0)
  let pairs := cluster.enum.filterMap (fun x =>
    match idxOf ids (x.2.headD 0) with
    | some k => some (k, x.1)
    | none => none)
  let sorted := sortedBy (fun a b =>
    a.1 < b.1 || (a.1 == b.1 && a.2 ≤ b.2)) pairs
  sorted.map (fun x => cluster.getD x.2 [])

/-- cluster[:, 1::stepwise] applied to one row: the entries at
positions 1, 1+stepwise, 1+2*stepwise, ... -/
def strideCols (stepwise : Nat) (row : List Int) : List Int :=
  (List.range row.length).filterMap (fun i =>
    if 1 ≤ i ∧ (i - 1) % stepwise = 0 then some (row.getD i 0) else none)

/-- The computational core of evalHCC (lines 74-88) after loading:
align the cluster matrix to the profile matrix by ID, abort with the
assertion message of line 84 when the row counts disagree, otherwise
subsample the level columns and run the two phases.  The external
distance provider is the parameter D. -/
def evalHCC (method : List Int → List Int → ℚ)
    (silScore : (Nat → Nat → ℤ) → List Int → ℚ) (D : Nat → Nat → ℤ)
    (stepwise : Nat) (profile clusterIn : List (List Int)) :
    Except String (List ℚ × (Nat → Nat → ℚ)) :=
  let cluster := alignCluster profile clusterIn
  if cluster.length = profile.length then
    let cols := (cluster.map (strideCols stepwise)).transpose
    Except.ok (get_silhouette silScore D cols, get_similarity method cols)
  else
    Except.error "some profiles do not have corresponding cluster info"

/-- The python test h.startswith(hash): whether the first character of
the token is the hash character. -/
def startsHash (h : String) : Bool :=
  match h.data with
  | c :: _ => c == '#'
  | [] => false

/-- The column mask of prepare_mat (line 68): keep column i iff i == 0
or its header token does not start with the hash character. -/
def headerMask (header : List String) : List Bool :=
  header.enum.map (fun x => x.1 == 0 || !(startsHash x.2))

/-- Applying a boolean column mask to one row, as numpy fancy indexing
mat[:, allele_columns] does. -/
def selectCols (mask : List Bool) (row : List String) : List String :=
  (mask.zip row).filterMap (fun p => if p.1 then some p.2 else none)

/-- prepare_mat (lines 66-71): drop the header row, keep the columns
allowed by the header mask, cast entries to integers (the abstract
parameter str2int stands for astype(int)), and keep only the rows
whose column-0 value is strictly positive. -/
def prepare_mat (str2int : String → Int) (mat : List (List String)) :
    List (List Int) :=
  match mat with
  | [] => []
  | header :: rows =>
    let mask := headerMask header
    let mat1 := rows.map (fun r => (selectCols mask r).map str2int)
    mat1.filter (fun r => decide (0 < r.headD 0))

/-- Column selection as the claim words it: the column-0 entry is
always retained regardless of its header token, and every later entry
is retained iff its header token does not start with the hash
character; retained entries are cast to integers. -/
def specDropHash (str2int : String → Int) : List String → List String → List Int
  | h :: hs, a :: rest =>
    if startsHash h then specDropHash str2int hs rest
    else str2int a :: specDropHash str2int hs rest
  | _, _ => []

/-- One row reduced as the claim describes: column 0 kept
unconditionally, the other columns filtered by their header token. -/
def specRow (str2int : String → Int) (header row : List String) : List Int :=
  match header, row with
  | _ :: hs, a :: rest => str2int a :: specDropHash str2int hs rest
  | _, _ => []

/-- prepare_mat as the claim words it: reduce every data row, then
drop every row whose column-0 value is not strictly positive. -/
def prepare_mat_claim (str2int : String → Int) (header : List String)
    (rows : List (List String)) : List (List Int) :=
  (rows.map (specRow str2int header)).filter (fun r => decide (0 < r.headD 0))

/-- A concrete distance matrix with a single nonzero entry in the
upper triangle, used as a counterexample input. -/
def Dex : Nat → Nat → ℤ := fun i j => if i = 0 ∧ j = 1 then 1 else 0

/-- A concrete stand-in for the similarity method, used only to
evaluate the embedding at counterexample and witness inputs. -/
def methodZero : List Int → List Int → ℚ := fun _ _ => 0

/-! ### Helper lemmas -/

lemma range_foldl_simStep (method : List Int → List Int → ℚ)
    (cols : List (List Int)) (k : Nat) :
    (List.range k).foldl (simStep method cols) simInit
      = simClosedUpTo method cols k := by
  induction k with
  | zero =>
    funext i j
    simp [simClosedUpTo, simInit]
  | succ k ih =>
    rw [List.range_succ, List.foldl_append, ih]
    funext i j
    simp only [List.foldl_cons, List.foldl_nil]
    by_cases h1 : i = k ∧ k < j ∧ j < cols.length
    · obtain ⟨rfl, hj, hjL⟩ := h1
      rw [simStep, if_pos ⟨rfl, hj, hjL⟩, simClosedUpTo,
        if_pos ⟨hj, hjL, Nat.lt_succ_self i⟩]
    · by_cases h2 : j = k ∧ k < i ∧ i < cols.length
      · obtain ⟨rfl, hi, hiL⟩ := h2
        rw [simStep, if_neg h1, if_pos ⟨rfl, hi, hiL⟩, simClosedUpTo]
        rw [if_neg (by omega), if_pos ⟨hi, hiL, Nat.lt_succ_self j⟩]
      · rw [simStep, if_neg h1, if_neg h2, simClosedUpTo, simClosedUpTo]
        by_cases hA : i < j ∧ j < cols.length ∧ i < k
        · rw [if_pos hA, if_pos ⟨hA.1, hA.2.1, Nat.lt_succ_of_lt hA.2.2⟩]
        · by_cases hB : j < i ∧ i < cols.length ∧ j < k
          · rw [if_neg hA, if_pos hB, if_neg (by omega),
              if_pos ⟨hB.1, hB.2.1, Nat.lt_succ_of_lt hB.2.2⟩]
          · rw [if_neg hA, if_neg hB, if_neg (by omega), if_neg (by omega)]

lemma simLoop_apply (method : List Int → List Int → ℚ)
    (cols : List (List Int)) (i j : Nat) :
    simLoop method cols i j =
      if i < j ∧ j < cols.length then
        get_similarity2 method (levelCol cols i) (levelCol cols j)
      else if j < i ∧ i < cols.length then
        get_similarity2 method (levelCol cols j) (levelCol cols i)
      else 1 := by
  rw [simLoop, range_foldl_simStep, simClosedUpTo]
  by_cases hA : i < j ∧ j < cols.length
  · rw [if_pos ⟨hA.1, hA.2, by omega⟩, if_pos hA]
  · by_cases hB : j < i ∧ i < cols.length
    · rw [if_neg (by omega), if_pos ⟨hB.1, hB.2, by omega⟩, if_neg hA, if_pos hB]
    · rw [if_neg (by omega), if_neg (by omega), if_neg hA, if_neg hB]

lemma clamp_nonneg (v : ℚ) : 0 ≤ clampLow (clampHigh v) := by
  rw [clampHigh, clampLow]
  split_ifs <;> linarith

lemma clamp_le (v : ℚ) : clampLow (clampHigh v) ≤ 999/1000 := by
  rw [clampHigh, clampLow]
  split_ifs <;> linarith

lemma clamp_one : clampLow (clampHigh 1) = 999/1000 := by
  norm_num [clampHigh, clampLow]

lemma simLoop_symm (method : List Int → List Int → ℚ)
    (cols : List (List Int)) (i j : Nat) :
    simLoop method cols i j = simLoop method cols j i := by
  rw [simLoop_apply, simLoop_apply]
  by_cases hA : i < j ∧ j < cols.length
  · rw [if_pos hA, if_neg (by omega), if_pos hA]
  · by_cases hB : j < i ∧ i < cols.length
    · rw [if_neg hA, if_pos hB, if_pos hB]
    · rw [if_neg hA, if_neg hB, if_neg hB, if_neg hA]

/-! ### Claims -/

/-- Claim C1: the similarity work unit is claimed to return 1.0
whenever either of the two vectors has exactly one distinct tag, in
particular when cc2 alone is degenerate.  The source tests cc1 twice
and never cc2, so with cc1 = [0, 1] and the degenerate cc2 = [0, 0]
the unit returns method(cc1, cc2) (here 0), not 1.0. -/
theorem C1_short_circuit_ignores_cc2 :
    uniqueSize [(0 : Int), 0] = 1 ∧
      get_similarity2 methodZero [0, 1] [0, 0] = 0 ∧ (0 : ℚ) ≠ 1 :=
  ⟨by decide, by decide, by norm_num⟩

/-- Claim C2, counterexample: the symmetrization step D + transpose of
D applied twice does not agree with applying it once; on the strictly
upper-triangular matrix Dex the entry (0, 1) becomes 2 after two
applications but is 1 after one. -/
theorem C2_counterexample :
    ¬ symmetrize (symmetrize Dex) 0 1 = symmetrize Dex 0 1 := by decide

/-- Claim C2 as amended: the symmetrization step is not idempotent;
a second application doubles every entry, so on an already-symmetric
matrix it doubles every value instead of leaving it unchanged. -/
theorem C2_symmetrize_doubles (D : Nat → Nat → ℤ) (i j : Nat) :
    symmetrize (symmetrize D) i j = 2 * symmetrize D i j := by
  simp only [symmetrize]
  ring

/-- Claim C3, counterexample: the final clamping pass applies to the
whole matrix, so the diagonal entry of the returned similarity matrix
is 0.999, not 1.0, already for a single-level run. -/
theorem C3_counterexample :
    get_similarity methodZero [[0]] 0 0 = 999/1000 ∧
      get_similarity methodZero [[0]] 0 0 ≠ 1 := by
  constructor <;>
    norm_num [get_similarity, methodZero, simLoop, simStep, simInit,
      clampHigh, clampLow, List.range_succ]

/-- Claim C3 as amended: every diagonal entry of the assembled
similarity matrix is 1.0 before clamping, and the final clamping pass
lowers it, so every diagonal entry of the returned matrix equals
exactly 0.999. -/
theorem C3_diagonal_is_clamped (method : List Int → List Int → ℚ)
    (cols : List (List Int)) (i : Nat) :
    get_similarity method cols i i = 999/1000 := by
  unfold get_similarity
  rw [simLoop_apply, if_neg (by omega), if_neg (by omega), clamp_one]

/-- Claim C4, counterexample: level 0 of the two-level input has a
single distinct tag, yet the returned entry (0, 1) is not 1.0 (the
sentinel is clamped to 0.999 by the whole-matrix clamping pass). -/
theorem C4_counterexample :
    uniqueSize (levelCol [[0, 0], [0, 1]] 0) = 1 ∧
      get_similarity methodZero [[0, 0], [0, 1]] 0 1 ≠ 1 := by
  refine ⟨by decide, ?_⟩
  norm_num [get_similarity, methodZero, simLoop, simStep, simInit,
    clampHigh, clampLow, List.range_succ, get_similarity2, uniqueSize, levelCol]

/-- Claim C4 as amended: if level i has exactly one distinct tag then
for every level j above i both mirrored entries of the returned matrix
equal 0.999 (the 1.0 sentinel is written and then clamped); for j
below i the short-circuit does not fire at all, because the work unit
tests only its first vector. -/
theorem C4_degenerate_level_clamped (method : List Int → List Int → ℚ)
    (cols : List (List Int)) (i j : Nat)
    (hdeg : uniqueSize (levelCol cols i) = 1) (hij : i < j)
    (hjL : j < cols.length) :
    get_similarity method cols i j = 999/1000 ∧
      get_similarity method cols j i = 999/1000 := by
  have hval : simLoop method cols i j = 1 := by
    rw [simLoop_apply, if_pos ⟨hij, hjL⟩, get_similarity2, if_pos ⟨hdeg, hdeg⟩]
  constructor
  · show clampLow (clampHigh (simLoop method cols i j)) = 999/1000
    rw [hval, clamp_one]
  · show clampLow (clampHigh (simLoop method cols j i)) = 999/1000
    rw [simLoop_symm, hval, clamp_one]

/-- Witness for the amended claim C4 at a concrete input. -/
theorem C4_witness :
    uniqueSize (levelCol [[0, 0], [0, 1]] 0) = 1 ∧ (0 : Nat) < 1 ∧
      1 < ([[0, 0], [0, 1]] : List (List Int)).length ∧
      (get_similarity methodZero [[0, 0], [0, 1]] 0 1 = 999/1000 ∧
        get_similarity methodZero [[0, 0], [0, 1]] 1 0 = 999/1000) :=
  ⟨by decide, by decide, by decide,
    C4_degenerate_level_clamped methodZero [[0, 0], [0, 1]] 0 1
      (by decide) (by decide) (by decide)⟩

/-- Claim C5: the silhouette work unit invokes the metric on the
shared distance matrix with the tag vector as labels exactly when
2 <= s < N for s the distinct tag count, returns the sentinel 0
otherwise, and for a nonempty tag vector the only other cases are
s = 1 and s = N. -/
theorem C5_silhouette_unit_cases
    (silScore : (Nat → Nat → ℤ) → List Int → ℚ) (dist : Nat → Nat → ℤ)
    (tag : List Int) :
    (2 ≤ uniqueSize tag ∧ uniqueSize tag < tag.length →
      get_silhouette2 silScore dist tag = silScore dist tag) ∧
    (uniqueSize tag = 1 ∨ uniqueSize tag = tag.length →
      get_silhouette2 silScore dist tag = 0) ∧
    (tag ≠ [] →
      (2 ≤ uniqueSize tag ∧ uniqueSize tag < tag.length) ∨
        uniqueSize tag = 1 ∨ uniqueSize tag = tag.length) := by
  have hle : uniqueSize tag ≤ tag.length := by
    rw [uniqueSize]
    exact (List.dedup_sublist tag).length_le
  refine ⟨fun h => ?_, fun h => ?_, fun h => ?_⟩
  · rw [get_silhouette2, if_pos h]
  · rw [get_silhouette2, if_neg (by omega)]
  · have hpos : 0 < uniqueSize tag := by
      rw [uniqueSize]
      exact List.length_pos.mpr (fun hnil => h ((List.dedup_eq_nil tag).mp hnil))
    omega

/-- Witness for claim C5 at concrete inputs: a two-cluster tag vector
of length 3 invokes the metric, a one-cluster one returns 0. -/
theorem C5_witness :
    get_silhouette2 (fun _ _ => (1 : ℚ)/2) (fun _ _ => 0) [0, 0, 1] = (1 : ℚ)/2 ∧
      get_silhouette2 (fun _ _ => (1 : ℚ)/2) (fun _ _ => 0) [0, 0, 0] = 0 :=
  ⟨(C5_silhouette_unit_cases (fun _ _ => (1 : ℚ)/2) (fun _ _ => 0) [0, 0, 1]).1
      (by decide),
    (C5_silhouette_unit_cases (fun _ _ => (1 : ℚ)/2) (fun _ _ => 0) [0, 0, 0]).2.1
      (Or.inl (by decide))⟩

/-- Claim C6: the returned similarity matrix is symmetric, and the
pointwise clamping passes preserve that symmetry. -/
theorem C6_similarity_symmetric (method : List Int → List Int → ℚ)
    (cols : List (List Int)) (i j : Nat) :
    get_similarity method cols i j = get_similarity method cols j i := by
  unfold get_similarity
  rw [simLoop_symm]

/-- Claim C7: after the two clamping passes every off-diagonal entry
of the returned similarity matrix lies between 0 and 0.999. -/
theorem C7_offdiagonal_range (method : List Int → List Int → ℚ)
    (cols : List (List Int)) (i j : Nat) (_h : i ≠ j) :
    0 ≤ get_similarity method cols i j ∧
      get_similarity method cols i j ≤ 999/1000 :=
  ⟨clamp_nonneg _, clamp_le _⟩

/-- Witness for claim C7 at a concrete input. -/
theorem C7_witness :
    (0 : Nat) ≠ 1 ∧
      (0 ≤ get_similarity methodZero [[0]] 0 1 ∧
        get_similarity methodZero [[0]] 0 1 ≤ 999/1000) :=
  ⟨by decide, C7_offdiagonal_range methodZero [[0]] 0 1 (by decide)⟩

/-- Claim C9 (implicit): the clamping passes apply to the entire
matrix, so every entry of the returned similarity matrix, diagonal and
sentinels included, lies in [0, 0.999] and never equals 1.0. -/
theorem C9_whole_matrix_clamped (method : List Int → List Int → ℚ)
    (cols : List (List Int)) (i j : Nat) :
    0 ≤ get_similarity method cols i j ∧
      get_similarity method cols i j ≤ 999/1000 ∧
      get_similarity method cols i j ≠ 1 := by
  refine ⟨clamp_nonneg _, clamp_le _, fun h => ?_⟩
  have hb : get_similarity method cols i j ≤ 999/1000 := clamp_le _
  rw [h] at hb
  norm_num at hb

/-- Claim C8: when the ID-based alignment leaves a cluster row count
different from the profile row count, the run aborts with the
alignment error and neither phase runs. -/
theorem C8_alignment_mismatch_aborts (method : List Int → List Int → ℚ)
    (silScore : (Nat → Nat → ℤ) → List Int → ℚ) (D : Nat → Nat → ℤ)
    (stepwise : Nat) (profile clusterIn : List (List Int))
    (h : (alignCluster profile clusterIn).length ≠ profile.length) :
    evalHCC method silScore D stepwise profile clusterIn =
      Except.error "some profiles do not have corresponding cluster info" := by
  simp only [evalHCC]
  rw [if_neg h]

/-- Witness for claim C8: a cluster matrix with a single row whose ID
matches only one of the two profile rows. -/
theorem C8_witness :
    (alignCluster [[1], [2]] [[1, 5]]).length ≠
        ([[1], [2]] : List (List Int)).length ∧
      evalHCC methodZero (fun _ _ => 0) (fun _ _ => 0) 1 [[1], [2]] [[1, 5]] =
        Except.error "some profiles do not have corresponding cluster info" :=
  ⟨by decide,
    C8_alignment_mismatch_aborts methodZero (fun _ _ => 0) (fun _ _ => 0) 1
      [[1], [2]] [[1, 5]] (by decide)⟩

lemma selectCols_nil_mask (row : List String) : selectCols [] row = [] := by
  simp [selectCols]

lemma selectCols_nil_row (mask : List Bool) : selectCols mask [] = [] := by
  simp [selectCols]

lemma selectCols_cons_true (m : List Bool) (a : String) (r : List String) :
    selectCols (true :: m) (a :: r) = a :: selectCols m r := by
  simp [selectCols]

lemma selectCols_cons_false (m : List Bool) (a : String) (r : List String) :
    selectCols (false :: m) (a :: r) = selectCols m r := by
  simp [selectCols]

lemma selectCols_specDropHash (str2int : String → Int) (hs : List String) :
    ∀ (n : Nat) (rest : List String),
      (selectCols ((hs.enumFrom (n + 1)).map
          (fun x => x.1 == 0 || !(startsHash x.2))) rest).map str2int
        = specDropHash str2int hs rest := by
  induction hs with
  | nil =>
    intro n rest
    simp [selectCols_nil_mask, specDropHash, List.enumFrom]
  | cons h t ih =>
    intro n rest
    cases rest with
    | nil =>
      rw [selectCols_nil_row]
      simp [specDropHash]
    | cons a rest2 =>
      have henum : (h :: t).enumFrom (n + 1) = (n + 1, h) :: t.enumFrom (n + 2) := rfl
      rw [henum, List.map_cons]
      have hb0 : ((n + 1 : Nat) == 0) = false := rfl
      rw [hb0, Bool.false_or]
      by_cases hsh : startsHash h = true
      · rw [hsh, Bool.not_true, selectCols_cons_false, ih (n + 1) rest2]
        simp [specDropHash, hsh]
      · have hsh2 : startsHash h = false := by
          cases hx : startsHash h
          · rfl
          · exact absurd hx hsh
        rw [hsh2, Bool.not_false, selectCols_cons_true, List.map_cons,
          ih (n + 1) rest2]
        simp [specDropHash, hsh2]

lemma selectCols_headerMask (str2int : String → Int) (header r : List String) :
    (selectCols (headerMask header) r).map str2int = specRow str2int header r := by
  cases header with
  | nil =>
    rw [show headerMask [] = [] from rfl, selectCols_nil_mask]
    simp [specRow]
  | cons h hs =>
    cases r with
    | nil =>
      rw [selectCols_nil_row]
      simp [specRow]
    | cons a rest =>
      have hmask : headerMask (h :: hs)
          = true :: (hs.enumFrom 1).map (fun x => x.1 == 0 || !(startsHash x.2)) := by
        have hm : headerMask (h :: hs)
            = (((0 : Nat) == 0) || !(startsHash h))
              :: (hs.enumFrom 1).map (fun x => x.1 == 0 || !(startsHash x.2)) := rfl
        rw [hm]
        simp
      rw [hmask, selectCols_cons_true, List.map_cons]
      simp only [specRow]
      refine congrArg (fun l => str2int a :: l) ?_
      exact selectCols_specDropHash str2int hs 0 rest

/-- Claim C10 (implicit): prepare_mat always retains column 0 even
when its header token starts with the hash character, drops every
other column whose header token starts with the hash character, drops
every data row whose column-0 value is not strictly positive, and
returns exactly the remaining rows and columns cast to integers; this
is the refinement of prepare_mat against the claim-level description
prepare_mat_claim. -/
theorem C10_prepare_mat_matches_claim (str2int : String → Int)
    (header : List String) (rows : List (List String)) :
    prepare_mat str2int (header :: rows) = prepare_mat_claim str2int header rows := by
  have hfun : (fun r => (selectCols (headerMask header) r).map str2int)
      = specRow str2int header :=
    funext (fun r => selectCols_headerMask str2int header r)
  simp only [prepare_mat, prepare_mat_claim, hfun]
